import Mathlib

/-!
Shallow embedding of `src/Common/memory.h` (the instrumented allocation
facade of the chdb repository): the allocation entries `newImpl` and
`newNoExcept`, the deallocation entries `deleteImpl` and `deleteSized`,
and the accounting helpers `getActualAllocationSize`, `trackMemory` and
`untrackMemory`.

Modelling conventions:
- Pointers are natural numbers; `0` plays the role of the C++ null pointer.
- The preprocessor configuration (`USE_JEMALLOC`, `USE_GWP_ASAN`,
  `_GNU_SOURCE`) is a `Config` value; each C++ `#if` becomes an `if` on it.
- The behaviour of the external collaborators (the two native backends,
  `GWPAsan::GuardedAlloc`, `malloc_usable_size`, `je_nallocx`, `je_sallocx`,
  and `CurrentMemoryTracker`) is a structure `Env` of function parameters,
  so every theorem quantifies over their possible behaviours.
- The optional `std::align_val_t` template pack (`TAlign...`) becomes an
  `Option Nat` argument: `none` is the unaligned overload, `some a` the
  aligned one.
- Each facade function returns, together with its C++ return value, the
  list of observable `Event`s it performs (backend calls, guard-allocator
  calls, ProfileEvents increments, memory-tracker charges/releases), in
  source order.  C++ functions that can let an exception escape return an
  `Except`; `CurrentMemoryTracker::free` is the one collaborator the source
  treats as potentially throwing (it wraps one call to it in `try/catch`),
  modelled by the flag `Env.trackerFreeFails`.
-/

namespace Memory

/-- The three ProfileEvents counters used by `memory.h`:
`GWPAsanAllocateSuccess`, `GWPAsanAllocateFailed`, `GWPAsanFree`. -/
inductive Counter where
  | success
  | failed
  | freed
deriving DecidableEq, Repr

/-- Observable actions of the allocation facade, in source order.
The `backend` events abstract over the build-selected native backend:
in a jemalloc build they stand for `je_malloc` / `je_aligned_alloc` /
`je_free` / `je_sdallocx`, otherwise for `malloc` / `aligned_alloc` /
`free`.  `ret` records the pointer the call returned (`0` for null). -/
inductive Event where
  | guardAllocate (size : Nat) (align : Option Nat) (ret : Nat)
  | guardDeallocate (ptr : Nat)
  | backendMalloc (size : Nat) (ret : Nat)
  | backendAlignedAlloc (align : Nat) (size : Nat) (ret : Nat)
  | backendFree (ptr : Nat)
  | backendSizedFree (ptr : Nat) (size : Nat) (align : Option Nat)
  | counterInc (c : Counter)
  | trackerAlloc (n : Nat)
  | trackerFree (n : Nat)
deriving DecidableEq, Repr

/-- The preprocessor configuration under which `memory.h` is compiled. -/
structure Config where
  useJemalloc : Bool
  useGwpAsan : Bool
  gnuSource : Bool
deriving DecidableEq, Repr

/-- Behaviour of the external collaborators of `memory.h` for one call:
the sampling decision and guard allocator (`GWPAsan`), the two native
backends, the jemalloc size queries, `malloc_usable_size`, and whether a
call to `CurrentMemoryTracker::free` throws.  Allocation functions return
`0` for a null result. -/
structure Env where
  shouldSample : Bool
  guardAllocate : Nat → Option Nat → Nat
  pointerIsMine : Nat → Bool
  guardGetSize : Nat → Nat
  je_malloc : Nat → Nat
  je_aligned_alloc : Nat → Nat → Nat
  sys_malloc : Nat → Nat
  sys_aligned_alloc : Nat → Nat → Nat
  je_nallocx : Nat → Option Nat → Nat
  je_sallocx : Nat → Option Nat → Nat
  malloc_usable_size : Nat → Nat
  trackerFreeFails : Bool

/-- The `#if USE_GWP_ASAN` sampling block shared by the non-jemalloc
`newImpl` and `newNoExcept`: if sampling is compiled in and
`GWPAsan::shouldSample()` fires, try `GWPAsan::GuardedAlloc.allocate`;
a non-null result increments `GWPAsanAllocateSuccess` and is returned,
a null result increments `GWPAsanAllocateFailed` and falls through. -/
def trySampledAlloc (cfg : Config) (env : Env) (size : Nat) (align : Option Nat) :
    Option Nat × List Event :=
  if cfg.useGwpAsan && env.shouldSample then
    let g := env.guardAllocate size align
    if g = 0 then
      (none, [Event.guardAllocate size align 0, Event.counterInc Counter.failed])
    else
      (some g, [Event.guardAllocate size align g, Event.counterInc Counter.success])
  else
    (none, [])

/-- One call to the build-selected backend allocator: `je_aligned_alloc` /
`je_malloc` in a jemalloc build, `aligned_alloc` / `malloc` otherwise,
picking the aligned entry exactly when the alignment argument is present. -/
def backendAlloc (cfg : Config) (env : Env) (size : Nat) (align : Option Nat) :
    Nat × List Event :=
  match align with
  | some a =>
      let p := if cfg.useJemalloc then env.je_aligned_alloc a size else env.sys_aligned_alloc a size
      (p, [Event.backendAlignedAlloc a size p])
  | none =>
      let p := if cfg.useJemalloc then env.je_malloc size else env.sys_malloc size
      (p, [Event.backendMalloc size p])

/-- The `std::bad_alloc` condition thrown by `newImpl`. -/
inductive AllocError where
  | outOfMemory
deriving DecidableEq, Repr

/-- `Memory::newImpl` (both `#if USE_JEMALLOC` variants, lines 51-113):
the jemalloc variant calls `je_aligned_alloc`/`je_malloc` and throws
`std::bad_alloc` on null; the other variant first runs the GWP-ASan
sampling block, then calls `aligned_alloc`/`malloc` and throws
`std::bad_alloc` on null. -/
def newImpl (cfg : Config) (env : Env) (size : Nat) (align : Option Nat) :
    Except AllocError Nat × List Event :=
  if cfg.useJemalloc then
    let r := backendAlloc cfg env size align
    (if r.1 = 0 then Except.error AllocError.outOfMemory else Except.ok r.1, r.2)
  else
    match trySampledAlloc cfg env size align with
    | (some g, evs) => (Except.ok g, evs)
    | (none, evs) =>
        let r := backendAlloc cfg env size align
        (if r.1 = 0 then Except.error AllocError.outOfMemory else Except.ok r.1, evs ++ r.2)

/-- `Memory::newNoExcept` (both variants, both overloads, lines 115-165):
the jemalloc variant simply returns `je_malloc`/`je_aligned_alloc`; the
other variant runs the GWP-ASan sampling block and then returns
`malloc`/`aligned_alloc`.  The result is `Except`-valued to make the
no-raise guarantee of the `noexcept` entry a statable property: no branch
of the source produces an error. -/
def newNoExcept (cfg : Config) (env : Env) (size : Nat) (align : Option Nat) :
    Except AllocError Nat × List Event :=
  if cfg.useJemalloc then
    let r := backendAlloc cfg env size align
    (Except.ok r.1, r.2)
  else
    match trySampledAlloc cfg env size align with
    | (some g, evs) => (Except.ok g, evs)
    | (none, evs) =>
        let r := backendAlloc cfg env size align
        (Except.ok r.1, evs ++ r.2)

/-- `Memory::deleteImpl` (lines 126-129 and 167-178): the jemalloc variant
is just `je_free(ptr)`; the other variant first checks
`GWPAsan::GuardedAlloc.pointerIsMine` when sampling is compiled in,
incrementing `GWPAsanFree` and deallocating through the guard on a hit,
and otherwise calls `free(ptr)`. -/
def deleteImpl (cfg : Config) (env : Env) (ptr : Nat) : List Event :=
  if cfg.useJemalloc then
    [Event.backendFree ptr]
  else if cfg.useGwpAsan && env.pointerIsMine ptr then
    [Event.counterInc Counter.freed, Event.guardDeallocate ptr]
  else
    [Event.backendFree ptr]

/-- `Memory::deleteSized` (lines 182-223): the jemalloc variant returns at
once on a null pointer, then checks the guard allocator when sampling is
compiled in, then calls `je_sdallocx(ptr, size, flags)`; the non-jemalloc
variant checks the guard allocator and otherwise calls plain `free(ptr)`,
ignoring the declared size and alignment (and performing no null check). -/
def deleteSized (cfg : Config) (env : Env) (ptr size : Nat) (align : Option Nat) :
    List Event :=
  if cfg.useJemalloc then
    if ptr = 0 then []
    else if cfg.useGwpAsan && env.pointerIsMine ptr then
      [Event.counterInc Counter.freed, Event.guardDeallocate ptr]
    else
      [Event.backendSizedFree ptr size align]
  else if cfg.useGwpAsan && env.pointerIsMine ptr then
    [Event.counterInc Counter.freed, Event.guardDeallocate ptr]
  else
    [Event.backendFree ptr]

/-- `Memory::getActualAllocationSize` (lines 225-244): in a jemalloc build
with a non-zero size, the result of `je_nallocx(size, flags)`; otherwise
the nominal size unchanged. -/
def getActualAllocationSize (cfg : Config) (env : Env) (size : Nat) (align : Option Nat) :
    Nat :=
  if cfg.useJemalloc then
    if size = 0 then size else env.je_nallocx size align
  else size

/-- `Memory::trackMemory` (lines 246-253): resolves the actual allocation
size and charges it to `CurrentMemoryTracker::allocNoThrow` (which, per
its interface, never raises), returning the actual size. -/
def trackMemory (cfg : Config) (env : Env) (size : Nat) (align : Option Nat) :
    Nat × List Event :=
  let actual_size := getActualAllocationSize cfg env size align
  (actual_size, [Event.trackerAlloc actual_size])

/-- `Memory::untrackMemory` (lines 255-299).  The guard-allocator path
(lines 261-269) sits before the `try` block: it resolves the size (the
caller-declared one, or `GuardedAlloc.getSize`) and calls
`CurrentMemoryTracker::free` unprotected, so a tracker failure escapes
the `noexcept` function (modelled as `Except.error ()`).  The remaining
body resolves `actual_size` (jemalloc: `je_sallocx` for non-null pointers;
otherwise the declared size, else `malloc_usable_size` under
`_GNU_SOURCE`, else `0`) and calls `CurrentMemoryTracker::free` inside
`try/catch`, returning `actual_size` whether or not the tracker call
failed.  A caller-declared size of `0` is the C++ default argument,
meaning that no size was supplied. -/
def untrackMemory (cfg : Config) (env : Env) (ptr size : Nat) (align : Option Nat) :
    Except Unit Nat × List Event :=
  if cfg.useGwpAsan && env.pointerIsMine ptr then
    let sz := if size = 0 then env.guardGetSize ptr else size
    if env.trackerFreeFails then (Except.error (), [])
    else (Except.ok sz, [Event.trackerFree sz])
  else
    let actual_size :=
      if cfg.useJemalloc then
        if ptr ≠ 0 then env.je_sallocx ptr align else 0
      else if size ≠ 0 then size
      else if cfg.gnuSource then env.malloc_usable_size ptr
      else 0
    if env.trackerFreeFails then (Except.ok actual_size, [])
    else (Except.ok actual_size, [Event.trackerFree actual_size])

/-- Whether an event is an increment of some ProfileEvents counter. -/
def isCounterInc : Event → Bool
  | Event.counterInc _ => true
  | _ => false

/-- Whether an event is the `GWPAsanAllocateSuccess` increment. -/
def isSuccessInc : Event → Bool
  | Event.counterInc Counter.success => true
  | _ => false

/-- Whether an event is the `GWPAsanAllocateFailed` increment. -/
def isFailedInc : Event → Bool
  | Event.counterInc Counter.failed => true
  | _ => false

/-- Whether an event is the `GWPAsanFree` increment. -/
def isFreedInc : Event → Bool
  | Event.counterInc Counter.freed => true
  | _ => false

/-- Whether an event is a free through the guard allocator. -/
def isGuardFree : Event → Bool
  | Event.guardDeallocate _ => true
  | _ => false

/-- Whether an event is a guarded allocation attempt. -/
def isGuardAlloc : Event → Bool
  | Event.guardAllocate _ _ _ => true
  | _ => false

/-- Whether an event is a free (sized or unsized) through the backend. -/
def isBackendFree : Event → Bool
  | Event.backendFree _ => true
  | Event.backendSizedFree _ _ _ => true
  | _ => false

/-- Whether an event is an allocation through the backend. -/
def isBackendAlloc : Event → Bool
  | Event.backendMalloc _ _ => true
  | Event.backendAlignedAlloc _ _ _ => true
  | _ => false

/-- The number of `GWPAsanAllocateSuccess` increments in an event list. -/
def succIncs (evs : List Event) : Nat := evs.countP isSuccessInc

/-- The number of `GWPAsanAllocateFailed` increments in an event list. -/
def failIncs (evs : List Event) : Nat := evs.countP isFailedInc

/-- The number of `GWPAsanFree` increments in an event list. -/
def freedIncs (evs : List Event) : Nat := evs.countP isFreedInc

/-- The number of ProfileEvents increments of any kind in an event list. -/
def counterIncs (evs : List Event) : Nat := evs.countP isCounterInc

/-- The number of guard-allocator frees in an event list. -/
def guardFrees (evs : List Event) : Nat := evs.countP isGuardFree

/-- A deallocation was routed to the guard allocator: the guard free and
the freed-counter increment happened and no backend free did. -/
def routedToGuard (evs : List Event) (p : Nat) : Prop :=
  Event.guardDeallocate p ∈ evs ∧ Event.counterInc Counter.freed ∈ evs ∧
    ∀ e ∈ evs, isBackendFree e = false

/-- A deallocation was routed to the backend: no guard free and no
ProfileEvents increment happened, and some backend free did. -/
def routedToBackend (evs : List Event) : Prop :=
  (∀ e ∈ evs, isGuardFree e = false ∧ isCounterInc e = false) ∧
    ∃ e ∈ evs, isBackendFree e = true

/-- An allocation call offered the request to the guard allocator. -/
def offeredToGuard (evs : List Event) : Prop :=
  ∃ e ∈ evs, isGuardAlloc e = true

/-- Per-call behaviour of the external oracles during a trace: the value
`GWPAsan::shouldSample()` returns, the pointer the guard allocator would
return (`0` for a failed guarded allocation), and the pointer the backend
would return. -/
structure Oracle where
  shouldSample : Bool
  guardRet : Nat
  backendRet : Nat
deriving DecidableEq, Repr

/-- One operation of an execution trace against the allocation facade:
a throwing or non-throwing allocation (with its oracle), or an unsized or
sized deallocation of a pointer. -/
inductive Op where
  | allocThrow (size : Nat) (align : Option Nat) (o : Oracle)
  | allocNoThrow (size : Nat) (align : Option Nat) (o : Oracle)
  | freeUnsized (ptr : Nat)
  | freeSized (ptr size : Nat) (align : Option Nat)
deriving DecidableEq, Repr

/-- Trace state: the three ProfileEvents counter values, and the list of
pointers the guard allocator currently owns. -/
structure GState where
  owned : List Nat
  success : Nat
  failed : Nat
  freed : Nat
deriving DecidableEq, Repr

/-- The initial trace state: zero counters, guard allocator owns nothing. -/
def initState : GState := ⟨[], 0, 0, 0⟩

/-- Modelled from the spec: the ownership semantics of
`GWPAsan::GuardedAlloc` (declared in `Common/GWPAsan.h`, whose definition
is not part of the excerpt).  Per the spec's Sampling Guard Allocator
section and its sampling-ownership-closure property, `pointerIsMine`
holds exactly for the pointers the guard allocator returned and that were
not yet freed through this core; those are the `owned` list of the trace
state.  The remaining oracle answers come from the per-call `Oracle`. -/
def envOf (st : GState) (o : Oracle) : Env where
  shouldSample := o.shouldSample
  guardAllocate := fun _ _ => o.guardRet
  pointerIsMine := fun p => decide (p ∈ st.owned)
  guardGetSize := fun _ => 0
  je_malloc := fun _ => o.backendRet
  je_aligned_alloc := fun _ _ => o.backendRet
  sys_malloc := fun _ => o.backendRet
  sys_aligned_alloc := fun _ _ => o.backendRet
  je_nallocx := fun s _ => s
  je_sallocx := fun _ _ => 0
  malloc_usable_size := fun _ => 0
  trackerFreeFails := false

/-- Modelled from the spec: how one observable event updates the trace
state — counter increments bump the matching counter; a successful
guarded allocation adds the returned pointer to the guard allocator's
ownership; a guard free removes it.  Backend and tracker events do not
touch this state. -/
def applyEvent (st : GState) : Event → GState
  | Event.counterInc Counter.success => { st with success := st.success + 1 }
  | Event.counterInc Counter.failed => { st with failed := st.failed + 1 }
  | Event.counterInc Counter.freed => { st with freed := st.freed + 1 }
  | Event.guardAllocate _ _ ret => if ret = 0 then st else { st with owned := ret :: st.owned }
  | Event.guardDeallocate p => { st with owned := st.owned.erase p }
  | _ => st

/-- The events one trace operation performs, obtained by running the
corresponding facade entry of `memory.h` against the current state. -/
def eventsOf (cfg : Config) (st : GState) : Op → List Event
  | Op.allocThrow size align o => (newImpl cfg (envOf st o) size align).2
  | Op.allocNoThrow size align o => (newNoExcept cfg (envOf st o) size align).2
  | Op.freeUnsized ptr => deleteImpl cfg (envOf st ⟨false, 0, 0⟩) ptr
  | Op.freeSized ptr size align => deleteSized cfg (envOf st ⟨false, 0, 0⟩) ptr size align

/-- Run one trace operation: perform its events on the state. -/
def stepOp (cfg : Config) (st : GState) (op : Op) : GState :=
  (eventsOf cfg st op).foldl applyEvent st

/-- Run a whole trace from the initial state. -/
def runOps (cfg : Config) (ops : List Op) : GState :=
  ops.foldl (stepOp cfg) initState

/-- Whether a trace operation is a sampled allocation attempt: an
allocation entry that consults `shouldSample` (sampling compiled in,
non-jemalloc build) with a positive sampling decision. -/
def sampledOp (cfg : Config) : Op → Bool
  | Op.allocThrow _ _ o => !cfg.useJemalloc && cfg.useGwpAsan && o.shouldSample
  | Op.allocNoThrow _ _ o => !cfg.useJemalloc && cfg.useGwpAsan && o.shouldSample
  | _ => false

/-- The number of sampled allocation attempts in a trace. -/
def countSampled (cfg : Config) (ops : List Op) : Nat :=
  ops.countP (sampledOp cfg)

/-- A jemalloc build with GWP-ASan sampling compiled in. -/
def cfgJemGwp : Config := ⟨true, true, false⟩

/-- A jemalloc build without sampling. -/
def cfgJem : Config := ⟨true, false, false⟩

/-- A non-jemalloc build with sampling compiled in, without `_GNU_SOURCE`. -/
def cfgSysGwp : Config := ⟨false, true, false⟩

/-- A non-jemalloc `_GNU_SOURCE` build with sampling compiled in. -/
def cfgSysGwpGnu : Config := ⟨false, true, true⟩

/-- A base environment for concrete evaluations: sampling off, the guard
allocator owns nothing, every backend allocation returns pointer `1`,
jemalloc rounds every non-zero request up to a multiple of `8` with a
minimum size class of `8` and reports committed size `8` for every
pointer, and the memory tracker does not fail. -/
def baseEnv : Env where
  shouldSample := false
  guardAllocate := fun _ _ => 0
  pointerIsMine := fun _ => false
  guardGetSize := fun _ => 0
  je_malloc := fun _ => 1
  je_aligned_alloc := fun _ _ => 1
  sys_malloc := fun _ => 1
  sys_aligned_alloc := fun _ _ => 1
  je_nallocx := fun s _ => 8 * ((s + 7) / 8)
  je_sallocx := fun _ _ => 8
  malloc_usable_size := fun _ => 0
  trackerFreeFails := false

/-- An environment in which the guard allocator claims every pointer. -/
def envMineAll : Env := { baseEnv with pointerIsMine := fun _ => true }

/-- An environment in which the guard allocator claims every pointer and
`CurrentMemoryTracker::free` throws. -/
def envMineAllTrackerFails : Env :=
  { baseEnv with pointerIsMine := fun _ => true, trackerFreeFails := true }

/-- An environment in which sampling always fires and the guard allocator
returns pointer `7`. -/
def envSampleHit : Env :=
  { baseEnv with shouldSample := true, guardAllocate := fun _ _ => 7 }

/-- An environment in which sampling always fires and the guard
allocation fails (returns null), while the backend returns pointer `1`. -/
def envSampleMiss : Env := { baseEnv with shouldSample := true }

/-- An environment whose backend reports a committed size of `200` for
every pointer. -/
def envSallocx200 : Env := { baseEnv with je_sallocx := fun _ _ => 200 }

/-- A jemalloc-like size model with a minimum size class of `8`: the
size computation rounds every request (including a zero-size request)
up to a positive multiple of `8`, and the committed size reported for
any live pointer is `8`. -/
def envMinClass8 : Env :=
  { baseEnv with je_nallocx := fun s _ => max 8 (8 * ((s + 7) / 8)) }

/-- The trace invariant behind counter conservation: the freed counter
plus the number of still-owned guard pointers never exceeds the success
counter. -/
def gInv (st : GState) : Prop := st.freed + st.owned.length ≤ st.success

/-- Closed form of `newImpl` over its four control-flow branches. -/
theorem newImpl_eq (cfg : Config) (env : Env) (size : Nat) (align : Option Nat) :
    newImpl cfg env size align =
      if cfg.useJemalloc then
        (if (backendAlloc cfg env size align).1 = 0 then Except.error AllocError.outOfMemory
          else Except.ok (backendAlloc cfg env size align).1,
         (backendAlloc cfg env size align).2)
      else if cfg.useGwpAsan && env.shouldSample then
        if env.guardAllocate size align = 0 then
          (if (backendAlloc cfg env size align).1 = 0 then Except.error AllocError.outOfMemory
            else Except.ok (backendAlloc cfg env size align).1,
           Event.guardAllocate size align 0 :: Event.counterInc Counter.failed ::
             (backendAlloc cfg env size align).2)
        else
          (Except.ok (env.guardAllocate size align),
           [Event.guardAllocate size align (env.guardAllocate size align),
            Event.counterInc Counter.success])
      else
        (if (backendAlloc cfg env size align).1 = 0 then Except.error AllocError.outOfMemory
          else Except.ok (backendAlloc cfg env size align).1,
         (backendAlloc cfg env size align).2) := by
  cases hj : cfg.useJemalloc with
  | true => simp [newImpl, hj]
  | false =>
    cases hs : cfg.useGwpAsan && env.shouldSample with
    | false => simp [newImpl, trySampledAlloc, hj, hs]
    | true =>
      by_cases hg : env.guardAllocate size align = 0 <;>
        simp [newImpl, trySampledAlloc, hj, hs, hg]

/-- Closed form of `newNoExcept` over its four control-flow branches. -/
theorem newNoExcept_eq (cfg : Config) (env : Env) (size : Nat) (align : Option Nat) :
    newNoExcept cfg env size align =
      if cfg.useJemalloc then
        (Except.ok (backendAlloc cfg env size align).1, (backendAlloc cfg env size align).2)
      else if cfg.useGwpAsan && env.shouldSample then
        if env.guardAllocate size align = 0 then
          (Except.ok (backendAlloc cfg env size align).1,
           Event.guardAllocate size align 0 :: Event.counterInc Counter.failed ::
             (backendAlloc cfg env size align).2)
        else
          (Except.ok (env.guardAllocate size align),
           [Event.guardAllocate size align (env.guardAllocate size align),
            Event.counterInc Counter.success])
      else
        (Except.ok (backendAlloc cfg env size align).1, (backendAlloc cfg env size align).2) := by
  cases hj : cfg.useJemalloc with
  | true => simp [newNoExcept, hj]
  | false =>
    cases hs : cfg.useGwpAsan && env.shouldSample with
    | false => simp [newNoExcept, trySampledAlloc, hj, hs]
    | true =>
      by_cases hg : env.guardAllocate size align = 0 <;>
        simp [newNoExcept, trySampledAlloc, hj, hs, hg]

/-- How a single event changes the three counters of the trace state. -/
theorem applyEvent_counters (st : GState) (e : Event) :
    (applyEvent st e).success = st.success + (if isSuccessInc e = true then 1 else 0) ∧
    (applyEvent st e).failed = st.failed + (if isFailedInc e = true then 1 else 0) ∧
    (applyEvent st e).freed = st.freed + (if isFreedInc e = true then 1 else 0) := by
  cases e with
  | counterInc c =>
      cases c <;> simp [applyEvent, isSuccessInc, isFailedInc, isFreedInc]
  | guardAllocate s a r =>
      by_cases hr : r = 0 <;>
        simp [applyEvent, isSuccessInc, isFailedInc, isFreedInc, hr]
  | guardDeallocate p => simp [applyEvent, isSuccessInc, isFailedInc, isFreedInc]
  | backendMalloc s r => simp [applyEvent, isSuccessInc, isFailedInc, isFreedInc]
  | backendAlignedAlloc a s r => simp [applyEvent, isSuccessInc, isFailedInc, isFreedInc]
  | backendFree p => simp [applyEvent, isSuccessInc, isFailedInc, isFreedInc]
  | backendSizedFree p s a => simp [applyEvent, isSuccessInc, isFailedInc, isFreedInc]
  | trackerAlloc n => simp [applyEvent, isSuccessInc, isFailedInc, isFreedInc]
  | trackerFree n => simp [applyEvent, isSuccessInc, isFailedInc, isFreedInc]

/-- Folding a list of events adds, to each counter, the number of its
increments in the list. -/
theorem foldl_applyEvent_counters (evs : List Event) (st : GState) :
    (evs.foldl applyEvent st).success = st.success + succIncs evs ∧
    (evs.foldl applyEvent st).failed = st.failed + failIncs evs ∧
    (evs.foldl applyEvent st).freed = st.freed + freedIncs evs := by
  induction evs generalizing st with
  | nil => simp [succIncs, failIncs, freedIncs]
  | cons e rest ih =>
      obtain ⟨h1, h2, h3⟩ := applyEvent_counters st e
      obtain ⟨g1, g2, g3⟩ := ih (applyEvent st e)
      simp only [List.foldl_cons, succIncs, failIncs, freedIncs, List.countP_cons] at *
      split_ifs at * <;> omega

/-- Backend allocation events carry no counter increment, no guard event,
and do not change the trace state. -/
theorem backendAlloc_events (cfg : Config) (env : Env) (size : Nat) (align : Option Nat)
    (st : GState) :
    (backendAlloc cfg env size align).2.foldl applyEvent st = st ∧
    succIncs (backendAlloc cfg env size align).2 = 0 ∧
    failIncs (backendAlloc cfg env size align).2 = 0 ∧
    freedIncs (backendAlloc cfg env size align).2 = 0 ∧
    counterIncs (backendAlloc cfg env size align).2 = 0 ∧
    guardFrees (backendAlloc cfg env size align).2 = 0 := by
  cases align <;>
    simp [backendAlloc, applyEvent, succIncs, failIncs, freedIncs, counterIncs, guardFrees,
      isSuccessInc, isFailedInc, isFreedInc, isCounterInc, isGuardFree]

/-- Sampling decision seen by the facade during a trace step. -/
theorem envOf_shouldSample (st : GState) (o : Oracle) :
    (envOf st o).shouldSample = o.shouldSample := rfl

/-- Guard-allocation answer seen by the facade during a trace step. -/
theorem envOf_guardAllocate (st : GState) (o : Oracle) (s : Nat) (a : Option Nat) :
    (envOf st o).guardAllocate s a = o.guardRet := rfl

/-- Ownership answer seen by the facade during a trace step. -/
theorem envOf_pointerIsMine (st : GState) (o : Oracle) (p : Nat) :
    (envOf st o).pointerIsMine p = decide (p ∈ st.owned) := rfl

/-- Counting success increments: empty list. -/
theorem succIncs_nil : succIncs [] = 0 := rfl

/-- Counting success increments: cons. -/
theorem succIncs_cons (e : Event) (l : List Event) :
    succIncs (e :: l) = succIncs l + (if isSuccessInc e = true then 1 else 0) :=
  List.countP_cons isSuccessInc e l

/-- Counting failed increments: empty list. -/
theorem failIncs_nil : failIncs [] = 0 := rfl

/-- Counting failed increments: cons. -/
theorem failIncs_cons (e : Event) (l : List Event) :
    failIncs (e :: l) = failIncs l + (if isFailedInc e = true then 1 else 0) :=
  List.countP_cons isFailedInc e l

/-- Counting freed increments: empty list. -/
theorem freedIncs_nil : freedIncs [] = 0 := rfl

/-- Counting freed increments: cons. -/
theorem freedIncs_cons (e : Event) (l : List Event) :
    freedIncs (e :: l) = freedIncs l + (if isFreedInc e = true then 1 else 0) :=
  List.countP_cons isFreedInc e l

/-- Counting counter increments: empty list. -/
theorem counterIncs_nil : counterIncs [] = 0 := rfl

/-- Counting counter increments: cons. -/
theorem counterIncs_cons (e : Event) (l : List Event) :
    counterIncs (e :: l) = counterIncs l + (if isCounterInc e = true then 1 else 0) :=
  List.countP_cons isCounterInc e l

/-- Counting guard frees: empty list. -/
theorem guardFrees_nil : guardFrees [] = 0 := rfl

/-- Counting guard frees: cons. -/
theorem guardFrees_cons (e : Event) (l : List Event) :
    guardFrees (e :: l) = guardFrees l + (if isGuardFree e = true then 1 else 0) :=
  List.countP_cons isGuardFree e l

/-- Backend allocation events leave any trace state unchanged. -/
theorem backendAlloc_foldl (cfg : Config) (env : Env) (size : Nat) (align : Option Nat)
    (st : GState) :
    (backendAlloc cfg env size align).2.foldl applyEvent st = st :=
  (backendAlloc_events cfg env size align st).1

/-- Per-operation counter discipline: one sampled allocation attempt
yields exactly one success-or-failed increment and an unsampled one
yields none; no operation increments more than one counter; and the
number of guard frees equals the number of freed increments. -/
theorem op_counts (cfg : Config) (st : GState) (op : Op) :
    succIncs (eventsOf cfg st op) + failIncs (eventsOf cfg st op)
        = (if sampledOp cfg op = true then 1 else 0) ∧
    counterIncs (eventsOf cfg st op) ≤ 1 ∧
    guardFrees (eventsOf cfg st op) = freedIncs (eventsOf cfg st op) := by
  cases op with
  | allocThrow size align o =>
      obtain ⟨-, b1, b2, b3, b4, b5⟩ := backendAlloc_events cfg (envOf st o) size align st
      cases hj : cfg.useJemalloc <;> cases hgw : cfg.useGwpAsan <;>
        cases hss : o.shouldSample <;> by_cases hg : o.guardRet = 0 <;>
          simp [eventsOf, newImpl_eq, sampledOp, envOf_shouldSample, envOf_guardAllocate, hj, hgw, hss, hg,
            succIncs_nil, succIncs_cons, failIncs_nil, failIncs_cons,
            freedIncs_nil, freedIncs_cons, counterIncs_nil, counterIncs_cons,
            guardFrees_nil, guardFrees_cons,
            isSuccessInc, isFailedInc, isFreedInc, isCounterInc, isGuardFree,
            b1, b2, b3, b4, b5]
  | allocNoThrow size align o =>
      obtain ⟨-, b1, b2, b3, b4, b5⟩ := backendAlloc_events cfg (envOf st o) size align st
      cases hj : cfg.useJemalloc <;> cases hgw : cfg.useGwpAsan <;>
        cases hss : o.shouldSample <;> by_cases hg : o.guardRet = 0 <;>
          simp [eventsOf, newNoExcept_eq, sampledOp, envOf_shouldSample, envOf_guardAllocate, hj, hgw, hss, hg,
            succIncs_nil, succIncs_cons, failIncs_nil, failIncs_cons,
            freedIncs_nil, freedIncs_cons, counterIncs_nil, counterIncs_cons,
            guardFrees_nil, guardFrees_cons,
            isSuccessInc, isFailedInc, isFreedInc, isCounterInc, isGuardFree,
            b1, b2, b3, b4, b5]
  | freeUnsized ptr =>
      cases hj : cfg.useJemalloc <;> cases hgw : cfg.useGwpAsan <;>
        by_cases hm : ptr ∈ st.owned <;>
          simp_all [eventsOf, deleteImpl, sampledOp, envOf_pointerIsMine,
            succIncs_nil, succIncs_cons, failIncs_nil, failIncs_cons,
            freedIncs_nil, freedIncs_cons, counterIncs_nil, counterIncs_cons,
            guardFrees_nil, guardFrees_cons,
            isSuccessInc, isFailedInc, isFreedInc, isCounterInc, isGuardFree]
  | freeSized ptr size align =>
      cases hj : cfg.useJemalloc <;> cases hgw : cfg.useGwpAsan <;>
        by_cases hp : ptr = 0 <;> by_cases hm : ptr ∈ st.owned <;>
          simp_all [eventsOf, deleteSized, sampledOp, envOf_pointerIsMine,
            succIncs_nil, succIncs_cons, failIncs_nil, failIncs_cons,
            freedIncs_nil, freedIncs_cons, counterIncs_nil, counterIncs_cons,
            guardFrees_nil, guardFrees_cons,
            isSuccessInc, isFailedInc, isFreedInc, isCounterInc, isGuardFree]

/-- Every trace operation preserves the counter invariant: freed plus
still-owned guard pointers stays at most the success counter. -/
theorem stepOp_inv (cfg : Config) (st : GState) (op : Op) (h : gInv st) :
    gInv (stepOp cfg st op) := by
  cases op with
  | allocThrow size align o =>
      cases hj : cfg.useJemalloc <;> cases hgw : cfg.useGwpAsan <;>
        cases hss : o.shouldSample <;> by_cases hg : o.guardRet = 0 <;>
          simp_all [stepOp, eventsOf, newImpl_eq, envOf_shouldSample, envOf_guardAllocate,
            backendAlloc_foldl, applyEvent, gInv] <;> omega
  | allocNoThrow size align o =>
      cases hj : cfg.useJemalloc <;> cases hgw : cfg.useGwpAsan <;>
        cases hss : o.shouldSample <;> by_cases hg : o.guardRet = 0 <;>
          simp_all [stepOp, eventsOf, newNoExcept_eq, envOf_shouldSample, envOf_guardAllocate,
            backendAlloc_foldl, applyEvent, gInv] <;> omega
  | freeUnsized ptr =>
      by_cases hm : ptr ∈ st.owned
      · have hlen := List.length_erase_of_mem hm
        have hpos := List.length_pos_of_mem hm
        cases hj : cfg.useJemalloc <;> cases hgw : cfg.useGwpAsan <;>
          simp_all [stepOp, eventsOf, deleteImpl, envOf_pointerIsMine, applyEvent, gInv] <;>
            omega
      · cases hj : cfg.useJemalloc <;> cases hgw : cfg.useGwpAsan <;>
          simp_all [stepOp, eventsOf, deleteImpl, envOf_pointerIsMine, applyEvent, gInv]
  | freeSized ptr size align =>
      by_cases hm : ptr ∈ st.owned
      · have hlen := List.length_erase_of_mem hm
        have hpos := List.length_pos_of_mem hm
        cases hj : cfg.useJemalloc <;> cases hgw : cfg.useGwpAsan <;>
          by_cases hp : ptr = 0 <;>
            simp_all [stepOp, eventsOf, deleteSized, envOf_pointerIsMine, applyEvent, gInv] <;>
              omega
      · cases hj : cfg.useJemalloc <;> cases hgw : cfg.useGwpAsan <;>
          by_cases hp : ptr = 0 <;>
            simp_all [stepOp, eventsOf, deleteSized, envOf_pointerIsMine, applyEvent, gInv]

/-- The counter invariant holds after any trace from any invariant state. -/
theorem foldl_stepOp_inv (cfg : Config) (ops : List Op) (st : GState) (h : gInv st) :
    gInv (ops.foldl (stepOp cfg) st) := by
  induction ops generalizing st with
  | nil => simpa using h
  | cons op rest ih => exact ih (stepOp cfg st op) (stepOp_inv cfg st op h)

/-- One trace operation adds its event counts to the state counters. -/
theorem stepOp_counters (cfg : Config) (st : GState) (op : Op) :
    (stepOp cfg st op).success = st.success + succIncs (eventsOf cfg st op) ∧
    (stepOp cfg st op).failed = st.failed + failIncs (eventsOf cfg st op) ∧
    (stepOp cfg st op).freed = st.freed + freedIncs (eventsOf cfg st op) :=
  foldl_applyEvent_counters (eventsOf cfg st op) st

/-- Along any trace, success plus failed grows by exactly the number of
sampled allocation attempts. -/
theorem foldl_stepOp_conservation (cfg : Config) (ops : List Op) (st : GState) :
    (ops.foldl (stepOp cfg) st).success + (ops.foldl (stepOp cfg) st).failed
      = st.success + st.failed + countSampled cfg ops := by
  induction ops generalizing st with
  | nil => simp [countSampled]
  | cons op rest ih =>
      obtain ⟨c1, c2, -⟩ := stepOp_counters cfg st op
      obtain ⟨d1, -, -⟩ := op_counts cfg st op
      have := ih (stepOp cfg st op)
      simp only [List.foldl_cons, countSampled, List.countP_cons] at *
      split_ifs at * <;> omega

/-- C3: for every (size, alignment) request, in every build
configuration and against every backend and guard-allocator behaviour,
the throwing allocation entry `newImpl` either returns a non-null
pointer or raises the out-of-memory condition (`std::bad_alloc`); it
never returns null, and `AllocError.outOfMemory` is the only error it
can surface. -/
theorem newImpl_nonnull_or_oom (cfg : Config) (env : Env) (size : Nat) (align : Option Nat) :
    (∃ p, p ≠ 0 ∧ (newImpl cfg env size align).1 = Except.ok p) ∨
      (newImpl cfg env size align).1 = Except.error AllocError.outOfMemory := by
  rw [newImpl_eq]
  by_cases hj : cfg.useJemalloc = true
  · by_cases hb : (backendAlloc cfg env size align).1 = 0
    · right; simp [hj, hb]
    · left; exact ⟨(backendAlloc cfg env size align).1, hb, by simp [hj, hb]⟩
  · by_cases hs : (cfg.useGwpAsan && env.shouldSample) = true
    · by_cases hg : env.guardAllocate size align = 0
      · by_cases hb : (backendAlloc cfg env size align).1 = 0
        · right; simp [hj, hs, hg, hb]
        · left; exact ⟨(backendAlloc cfg env size align).1, hb, by simp [hj, hs, hg, hb]⟩
      · left; exact ⟨env.guardAllocate size align, hg, by simp [hj, hs, hg]⟩
    · by_cases hb : (backendAlloc cfg env size align).1 = 0
      · right; simp [hj, hs, hb]
      · left; exact ⟨(backendAlloc cfg env size align).1, hb, by simp [hj, hs, hb]⟩

/-- C4: for every input (including zero size and a backend whose
allocation fails, i.e. returns null) and in every build configuration,
the non-throwing allocation entry `newNoExcept` returns a value — a
usable pointer or null — and never produces a failure condition. -/
theorem newNoExcept_never_raises (cfg : Config) (env : Env) (size : Nat) (align : Option Nat) :
    ∃ p, (newNoExcept cfg env size align).1 = Except.ok p := by
  rw [newNoExcept_eq]
  by_cases hj : cfg.useJemalloc = true
  · exact ⟨(backendAlloc cfg env size align).1, by simp [hj]⟩
  · by_cases hs : (cfg.useGwpAsan && env.shouldSample) = true
    · by_cases hg : env.guardAllocate size align = 0
      · exact ⟨(backendAlloc cfg env size align).1, by simp [hj, hs, hg]⟩
      · exact ⟨env.guardAllocate size align, by simp [hj, hs, hg]⟩
    · exact ⟨(backendAlloc cfg env size align).1, by simp [hj, hs]⟩

/-- C10: for a null pointer, in every build configuration and for every
declared size and alignment, the sized deallocation entry `deleteSized`
is a no-op at the public interface: it performs no guard-allocator free,
increments no ProfileEvents counter, and the only backend call it may
make is `free` of the null pointer, which deallocates nothing by the C
contract (the hypothesis records that the guard allocator, which owns
only pointers it returned, does not own null). -/
theorem deleteSized_null_noop (cfg : Config) (env : Env) (size : Nat) (align : Option Nat)
    (h : env.pointerIsMine 0 = false) :
    ∀ e ∈ deleteSized cfg env 0 size align,
      isCounterInc e = false ∧ isGuardFree e = false ∧ e = Event.backendFree 0 := by
  cases hj : cfg.useJemalloc <;>
    simp [deleteSized, hj, h, isCounterInc, isGuardFree]

/-- Witness for C10 at a concrete build configuration and environment. -/
theorem deleteSized_null_noop_witness :
    baseEnv.pointerIsMine 0 = false ∧
      ∀ e ∈ deleteSized cfgSysGwp baseEnv 0 5 none,
        isCounterInc e = false ∧ isGuardFree e = false ∧ e = Event.backendFree 0 :=
  ⟨rfl, deleteSized_null_noop cfgSysGwp baseEnv 5 none rfl⟩

/-- C9: for every (size, alignment) request, `getActualAllocationSize`
returns the size the backend will actually commit — the `je_nallocx`
size computation — whenever that primitive is exposed and usable (a
jemalloc build, non-zero size), and otherwise returns the nominal size
unchanged; under the rounding-up property of the backend size
computation the result is at least the requested size; and this actual
size — never the caller's nominal size — is exactly the quantity
`trackMemory` charges to the usage tracker. -/
theorem getActualAllocationSize_spec (cfg : Config) (env : Env) (size : Nat)
    (align : Option Nat)
    (hround : ∀ s a, s ≠ 0 → s ≤ env.je_nallocx s a) :
    (cfg.useJemalloc = true → size ≠ 0 →
      getActualAllocationSize cfg env size align = env.je_nallocx size align) ∧
    (cfg.useJemalloc = false ∨ size = 0 →
      getActualAllocationSize cfg env size align = size) ∧
    size ≤ getActualAllocationSize cfg env size align ∧
    trackMemory cfg env size align =
      (getActualAllocationSize cfg env size align,
       [Event.trackerAlloc (getActualAllocationSize cfg env size align)]) := by
  refine ⟨?_, ?_, ?_, rfl⟩
  · intro hj hs
    simp [getActualAllocationSize, hj, hs]
  · rintro (hj | hs)
    · simp [getActualAllocationSize, hj]
    · cases hj : cfg.useJemalloc <;> simp [getActualAllocationSize, hj, hs]
  · by_cases hj : cfg.useJemalloc = true
    · by_cases hs : size = 0
      · simp [getActualAllocationSize, hj, hs]
      · simpa [getActualAllocationSize, hj, hs] using hround size align hs
    · simp [getActualAllocationSize, hj]

/-- Witness for C9 at a concrete environment whose size computation
rounds every non-zero request up to a positive multiple of 8. -/
theorem getActualAllocationSize_spec_witness :
    (∀ s a, s ≠ 0 → s ≤ baseEnv.je_nallocx s a) ∧
      (5 : Nat) ≤ getActualAllocationSize cfgJem baseEnv 5 none ∧
      getActualAllocationSize cfgJem baseEnv 5 none = baseEnv.je_nallocx 5 none := by
  have hround : ∀ s a, s ≠ 0 → s ≤ baseEnv.je_nallocx s a := by
    intro s a hs
    show s ≤ 8 * ((s + 7) / 8)
    omega
  exact ⟨hround, (getActualAllocationSize_spec cfgJem baseEnv 5 none hround).2.2.1,
    (getActualAllocationSize_spec cfgJem baseEnv 5 none hround).1 rfl (by decide)⟩

/-- Counterexample for C1 as stated: a zero-size request in a jemalloc
build.  The backend size queries are mutually consistent (the committed
size `je_sallocx` reports for the allocated pointer equals the
`je_nallocx` size computation for the request, both 8: a minimal size
class), yet `trackMemory` charges 0 — the source skips the size query
for `size == 0` and charges the nominal size — while `untrackMemory`
releases the committed size 8 for the same pointer. -/
theorem track_untrack_zero_size_cex :
    cfgJem.useJemalloc = true ∧
    envMinClass8.pointerIsMine 1 = false ∧
    envMinClass8.trackerFreeFails = false ∧
    envMinClass8.je_sallocx 1 none = envMinClass8.je_nallocx 0 none ∧
    (trackMemory cfgJem envMinClass8 0 none).1 = 0 ∧
    (untrackMemory cfgJem envMinClass8 1 0 none).1 = Except.ok 8 :=
  ⟨rfl, rfl, rfl, by decide, rfl, rfl⟩

/-- C1 amended: for every non-zero (size, alignment) request in a build
whose backend supports precise size queries (jemalloc), and for every
pointer the guard allocator does not own, if the committed size the
backend reports at deallocation agrees with its allocation-time size
computation for the request, then the actual size `untrackMemory`
releases (for any caller-declared size, which the jemalloc path
ignores) equals the actual size `trackMemory` charged, and the tracker
sees exactly one charge and one release of that amount. -/
theorem track_untrack_size_symmetry (cfg : Config) (env : Env)
    (ptr size szArg : Nat) (align : Option Nat)
    (hjem : cfg.useJemalloc = true)
    (hsize : size ≠ 0)
    (hptr : ptr ≠ 0)
    (hmine : env.pointerIsMine ptr = false)
    (htracker : env.trackerFreeFails = false)
    (hprecise : env.je_sallocx ptr align = env.je_nallocx size align) :
    (untrackMemory cfg env ptr szArg align).1 =
        Except.ok (trackMemory cfg env size align).1 ∧
    (trackMemory cfg env size align).2 =
        [Event.trackerAlloc (trackMemory cfg env size align).1] ∧
    (untrackMemory cfg env ptr szArg align).2 =
        [Event.trackerFree (trackMemory cfg env size align).1] := by
  refine ⟨?_, rfl, ?_⟩ <;>
    simp [untrackMemory, trackMemory, getActualAllocationSize,
      hjem, hsize, hptr, hmine, htracker, hprecise]

/-- Witness for C1 at a concrete jemalloc configuration and consistent
size-query environment. -/
theorem track_untrack_size_symmetry_witness :
    envMinClass8.je_sallocx 3 none = envMinClass8.je_nallocx 5 none ∧
    (untrackMemory cfgJemGwp envMinClass8 3 0 none).1 =
      Except.ok (trackMemory cfgJemGwp envMinClass8 5 none).1 :=
  ⟨by decide,
    (track_untrack_size_symmetry cfgJemGwp envMinClass8 3 5 0 none rfl (by decide)
      (by decide) rfl rfl (by decide)).1⟩

/-- Counterexample for C6 as stated: in a jemalloc build, a caller-
supplied size of 100 is ignored — `untrackMemory` releases the backend
committed-size query result (200), not the caller-declared size. -/
theorem untrack_ignores_caller_size_cex :
    cfgJem.useJemalloc = true ∧
    envSallocx200.pointerIsMine 1 = false ∧
    (untrackMemory cfgJem envSallocx200 1 100 none).1 = Except.ok 200 ∧
    (untrackMemory cfgJem envSallocx200 1 100 none).1 ≠ Except.ok 100 := by
  refine ⟨rfl, rfl, rfl, ?_⟩
  intro h
  have h3 : (untrackMemory cfgJem envSallocx200 1 100 none).1 = Except.ok 200 := rfl
  rw [h3] at h
  simp at h

/-- C6 amended: on deallocation of a pointer the guard allocator does
not own, `untrackMemory` resolves the size to release as follows — in a
jemalloc build it always uses the backend committed-size query
(`je_sallocx`) for a non-null pointer, ignoring any caller-supplied
size; in a non-jemalloc build it prefers the caller-supplied size when
one is given, and otherwise falls back to the approximate
`malloc_usable_size` query (available only under `_GNU_SOURCE`). -/
theorem untrack_size_resolution (cfg : Config) (env : Env) (ptr size : Nat)
    (align : Option Nat)
    (hmine : env.pointerIsMine ptr = false)
    (htracker : env.trackerFreeFails = false) :
    (cfg.useJemalloc = true → ptr ≠ 0 →
      (untrackMemory cfg env ptr size align).1 = Except.ok (env.je_sallocx ptr align)) ∧
    (cfg.useJemalloc = false → size ≠ 0 →
      (untrackMemory cfg env ptr size align).1 = Except.ok size) ∧
    (cfg.useJemalloc = false → size = 0 → cfg.gnuSource = true →
      (untrackMemory cfg env ptr size align).1 =
        Except.ok (env.malloc_usable_size ptr)) := by
  refine ⟨?_, ?_, ?_⟩
  · intro h1 h2
    simp [untrackMemory, hmine, htracker, h1, h2]
  · intro h1 h2
    simp [untrackMemory, hmine, htracker, h1, h2]
  · intro h1 h2 h3
    simp [untrackMemory, hmine, htracker, h1, h2, h3]

/-- Witness for C6 at a concrete non-jemalloc configuration with a
caller-supplied size. -/
theorem untrack_size_resolution_witness :
    baseEnv.pointerIsMine 1 = false ∧ baseEnv.trackerFreeFails = false ∧
    (untrackMemory cfgSysGwpGnu baseEnv 1 100 none).1 = Except.ok 100 :=
  ⟨rfl, rfl,
    (untrack_size_resolution cfgSysGwpGnu baseEnv 1 100 none rfl rfl).2.1 rfl (by decide)⟩

/-- C7 (code bug): on a guard-allocator-owned pointer, the accounting
release is not protected — `untrackMemory`'s guard path calls
`CurrentMemoryTracker::free` before the `try` block, so a tracker
failure escapes the `noexcept` function instead of being caught and
swallowed, contradicting the claimed never-raise contract that the
`try/catch` around the very same call on the non-guard path implements. -/
theorem untrackMemory_guard_path_raises :
    cfgSysGwp.useGwpAsan = true ∧
    envMineAllTrackerFails.pointerIsMine 5 = true ∧
    envMineAllTrackerFails.trackerFreeFails = true ∧
    (untrackMemory cfgSysGwp envMineAllTrackerFails 5 0 none).1 = Except.error () ∧
    (untrackMemory cfgSysGwp { envMineAllTrackerFails with
        pointerIsMine := fun _ => false } 5 0 none).1 = Except.ok 0 :=
  ⟨rfl, rfl, rfl, rfl, rfl⟩

/-- Counterexample for C2 as stated: in a jemalloc build with sampling
compiled in, the unsized deallocation entry `deleteImpl` does not ask
the guard allocator at all — a pointer the guard allocator owns is
passed straight to the backend free, with no guard free and no
freed-counter increment. -/
theorem deleteImpl_jemalloc_skips_guard_cex :
    cfgJemGwp.useJemalloc = true ∧
    cfgJemGwp.useGwpAsan = true ∧
    envMineAll.pointerIsMine 5 = true ∧
    deleteImpl cfgJemGwp envMineAll 5 = [Event.backendFree 5] ∧
    ¬ routedToGuard (deleteImpl cfgJemGwp envMineAll 5) 5 := by
  refine ⟨rfl, rfl, rfl, rfl, ?_⟩
  have h : deleteImpl cfgJemGwp envMineAll 5 = [Event.backendFree 5] := rfl
  rw [h]
  simp [routedToGuard]

/-- C2 amended: with sampling compiled in, every deallocation entry
except the jemalloc build's unsized form first asks the guard allocator
whether it owns the (non-null) pointer: if it does, the free is routed
to the guard allocator with exactly the freed-counter recorded and no
backend free; otherwise the pointer goes to the backend's sized or
unsized free with no guard free and no counter.  The jemalloc build's
unsized `deleteImpl` instead always frees through the backend without
consulting the guard allocator. -/
theorem delete_guard_routing (cfg : Config) (env : Env) (p s : Nat) (a : Option Nat)
    (hg : cfg.useGwpAsan = true) (hp : p ≠ 0) :
    (env.pointerIsMine p = true → routedToGuard (deleteSized cfg env p s a) p) ∧
    (env.pointerIsMine p = false → routedToBackend (deleteSized cfg env p s a)) ∧
    (cfg.useJemalloc = false → env.pointerIsMine p = true →
      routedToGuard (deleteImpl cfg env p) p) ∧
    (cfg.useJemalloc = false → env.pointerIsMine p = false →
      routedToBackend (deleteImpl cfg env p)) ∧
    (cfg.useJemalloc = true → deleteImpl cfg env p = [Event.backendFree p]) := by
  refine ⟨?_, ?_, ?_, ?_, ?_⟩
  · intro hm
    cases hj : cfg.useJemalloc <;>
      simp [deleteSized, hj, hg, hm, hp, routedToGuard, isBackendFree]
  · intro hm
    cases hj : cfg.useJemalloc <;>
      simp [deleteSized, hj, hg, hm, hp, routedToBackend, isBackendFree,
        isGuardFree, isCounterInc]
  · intro hj hm
    simp [deleteImpl, hj, hg, hm, routedToGuard, isBackendFree]
  · intro hj hm
    simp [deleteImpl, hj, hg, hm, routedToBackend, isBackendFree,
      isGuardFree, isCounterInc]
  · intro hj
    simp [deleteImpl, hj]

/-- Witness for C2 at a concrete non-jemalloc configuration with a
guard-owned pointer. -/
theorem delete_guard_routing_witness :
    cfgSysGwp.useGwpAsan = true ∧ (5 : Nat) ≠ 0 ∧
    envMineAll.pointerIsMine 5 = true ∧
    routedToGuard (deleteSized cfgSysGwp envMineAll 5 7 none) 5 :=
  ⟨rfl, by decide, rfl,
    (delete_guard_routing cfgSysGwp envMineAll 5 7 none rfl (by decide)).1 rfl⟩

/-- Counterexample for C5 as stated: in a jemalloc build with sampling
compiled in and a sampling decision that would fire, `newNoExcept` does
not offer the request to the guard allocator — it performs only the
backend allocation. -/
theorem newNoExcept_jemalloc_no_sampling_cex :
    cfgJemGwp.useJemalloc = true ∧
    cfgJemGwp.useGwpAsan = true ∧
    envSampleHit.shouldSample = true ∧
    (newNoExcept cfgJemGwp envSampleHit 10 none).2 = [Event.backendMalloc 10 1] ∧
    ¬ offeredToGuard (newNoExcept cfgJemGwp envSampleHit 10 none).2 := by
  refine ⟨rfl, rfl, rfl, rfl, ?_⟩
  have h : (newNoExcept cfgJemGwp envSampleHit 10 none).2 = [Event.backendMalloc 10 1] := rfl
  rw [h]
  simp [offeredToGuard, isGuardAlloc]

/-- C5 amended: in a non-jemalloc build with sampling compiled in,
every `newNoExcept` call with a positive sampling decision first offers
the request to the guard allocator (the guarded allocation attempt is
its first action); a successful guarded allocation is returned with no
backend allocation; a failed one falls through to the backend, records
the failed counter, and is never escalated — the call still returns the
backend result normally.  Without a positive sampling decision no guard
offer happens.  In the jemalloc build `newNoExcept` never offers the
request to the guard allocator. -/
theorem newNoExcept_sampling_first (cfg : Config) (env : Env) (size : Nat)
    (align : Option Nat) (hg : cfg.useGwpAsan = true) :
    (cfg.useJemalloc = false → env.shouldSample = true →
      (newNoExcept cfg env size align).2.head? =
        some (Event.guardAllocate size align (env.guardAllocate size align))) ∧
    (cfg.useJemalloc = false → env.shouldSample = true →
        env.guardAllocate size align ≠ 0 →
      (newNoExcept cfg env size align).1 = Except.ok (env.guardAllocate size align) ∧
      ∀ e ∈ (newNoExcept cfg env size align).2, isBackendAlloc e = false) ∧
    (cfg.useJemalloc = false → env.shouldSample = true →
        env.guardAllocate size align = 0 →
      (newNoExcept cfg env size align).1 = Except.ok (backendAlloc cfg env size align).1 ∧
      Event.counterInc Counter.failed ∈ (newNoExcept cfg env size align).2 ∧
      ∃ e ∈ (newNoExcept cfg env size align).2, isBackendAlloc e = true) ∧
    (cfg.useJemalloc = false → env.shouldSample = false →
      ∀ e ∈ (newNoExcept cfg env size align).2, isGuardAlloc e = false) ∧
    (cfg.useJemalloc = true →
      ∀ e ∈ (newNoExcept cfg env size align).2, isGuardAlloc e = false) := by
  refine ⟨?_, ?_, ?_, ?_, ?_⟩
  · intro hj hss
    by_cases hga : env.guardAllocate size align = 0 <;>
      simp [newNoExcept_eq, hj, hg, hss, hga]
  · intro hj hss hga
    simp [newNoExcept_eq, hj, hg, hss, hga, isBackendAlloc]
  · intro hj hss hga
    cases align <;>
      simp [newNoExcept_eq, backendAlloc, hj, hg, hss, hga, isBackendAlloc]
  · intro hj hss
    cases align <;>
      simp [newNoExcept_eq, backendAlloc, hj, hg, hss, isGuardAlloc]
  · intro hj
    cases align <;>
      simp [newNoExcept_eq, backendAlloc, hj, isGuardAlloc]

/-- Witness for C5 at a concrete non-jemalloc configuration with a
firing sampling decision. -/
theorem newNoExcept_sampling_first_witness :
    cfgSysGwp.useGwpAsan = true ∧
    cfgSysGwp.useJemalloc = false ∧
    envSampleHit.shouldSample = true ∧
    (newNoExcept cfgSysGwp envSampleHit 10 none).2.head? =
      some (Event.guardAllocate 10 none (envSampleHit.guardAllocate 10 none)) :=
  ⟨rfl, rfl, rfl,
    (newNoExcept_sampling_first cfgSysGwp envSampleHit 10 none rfl).1 rfl rfl⟩

/-- C8: in every execution trace against the facade, the success and
failed counters sum to exactly the number of sampled allocation
attempts, and the freed counter never exceeds the success counter;
per call, no operation performs more than one counter increment, every
guard-allocator free comes with exactly one freed increment, and every
sampled allocation attempt increments exactly one of success and
failed. -/
theorem counters_conserved (cfg : Config) (ops : List Op) (st : GState) (op : Op) :
    (runOps cfg ops).success + (runOps cfg ops).failed = countSampled cfg ops ∧
    (runOps cfg ops).freed ≤ (runOps cfg ops).success ∧
    counterIncs (eventsOf cfg st op) ≤ 1 ∧
    guardFrees (eventsOf cfg st op) = freedIncs (eventsOf cfg st op) ∧
    (sampledOp cfg op = true →
      succIncs (eventsOf cfg st op) + failIncs (eventsOf cfg st op) = 1) := by
  obtain ⟨c1, c2, c3⟩ := op_counts cfg st op
  refine ⟨?_, ?_, c2, c3, ?_⟩
  · have h := foldl_stepOp_conservation cfg ops initState
    simpa [runOps, initState] using h
  · have h := foldl_stepOp_inv cfg ops initState (by simp [gInv, initState])
    simp only [gInv] at h
    simp only [runOps]
    omega
  · intro hs
    rw [hs] at c1
    simpa using c1

/-- Witness for C8 at a concrete sampled non-throwing allocation. -/
theorem counters_conserved_witness :
    sampledOp cfgSysGwp (Op.allocNoThrow 8 none ⟨true, 7, 1⟩) = true ∧
    succIncs (eventsOf cfgSysGwp initState (Op.allocNoThrow 8 none ⟨true, 7, 1⟩)) +
      failIncs (eventsOf cfgSysGwp initState (Op.allocNoThrow 8 none ⟨true, 7, 1⟩)) = 1 :=
  ⟨by decide,
    (counters_conserved cfgSysGwp [] initState
      (Op.allocNoThrow 8 none ⟨true, 7, 1⟩)).2.2.2.2 (by decide)⟩

end Memory
